import Mathlib

/-!
# Verification of `rlcomp/dpg.py`

A shallow embedding of the deep deterministic policy gradient (DPG) graph
construction in `rlcomp/dpg.py`, together with theorems settling the frozen
claims about it.

The embedding has two layers, mirroring the two aspects of the source:

* a **value layer**: the numeric computation described by the constructed
  tensor graph, with `float32` tensors idealised as real-valued vectors
  (`List ℝ`) and matrices (`List (List ℝ)`); batch dimensions are modelled
  explicitly where a claim needs them and elided (one example slice) where
  every operation involved is elementwise across the batch;

* a **variable-store layer**: TensorFlow's construction-time bookkeeping of
  named trainable variables — `tf.variable_scope` with its `reuse` flag,
  `tf.get_variable`, and the `tf.all_variables()` scans used by
  `_make_objectives`.  Variables are identified by a scope path plus a leaf
  index, and `reuse=True` turns creation into lookup.

Code of the repository that is not under `src/` (`rlcomp/util.py`,
`rlcomp/pointer_network.py`) and the TensorFlow primitives are modelled from
the spec; each such definition carries a doc comment saying so.
-/

namespace Rlcomp

/-! ## Value-level tensors -/

/-- A per-example tensor slice (one row of a `batch × dim` tensor). -/
abbrev Vec := List ℝ

/-- A two-dimensional tensor (`batch × dim`), one inner list per example. -/
abbrev Mat := List (List ℝ)

/-- Shape of a two-dimensional tensor: the length of each row. -/
def matShape (m : Mat) : List Nat := m.map List.length

/-- Elementwise sum of two matrices (`tf` `+` on tensors of equal shape). -/
def matAdd (a b : Mat) : Mat := List.zipWith (List.zipWith (· + ·)) a b

/-- Modelled from the spec: `tf.reduce_mean` over a vector of per-example
scalars (external tensor-execution primitive). -/
noncomputable def mean (xs : List ℝ) : ℝ := xs.sum / xs.length

/-- Sum of a list of equal-length vectors (`tf.reduce_sum` along an axis). -/
def vsum (l : List Vec) : Vec :=
  match l with
  | [] => []
  | v :: vs => vs.foldl (fun acc u => List.zipWith (· + ·) acc u) v

/-- Modelled from the spec: `tf.random_normal(shape, mean, stddev)` for a
two-dimensional shape.  The underlying standard-normal draw is supplied as an
oracle `ω` indexed by position; the sampled tensor is `mean + stddev * ω` at
every position, so a zero `stddev` yields the constant `mean` tensor. -/
def randomNormalMat (shape : List Nat) (m stddev : ℝ) (ω : Nat → Nat → ℝ) : Mat :=
  shape.mapIdx (fun i len => (List.range len).map (fun j => m + stddev * ω i j))

/-! ## `noise_gaussian` (`dpg.py` lines 31–38)

The Python function accepts either a single actions tensor or a (possibly
nested) list of per-timestep actions tensors, recursing on lists.  `ActT`
mirrors that argument type.  The randomness oracle is indexed by the list
path to a tensor plus the position inside it, so distinct tensors draw
independent noise, as each `tf.random_normal` call does. -/

/-- Argument type of `noise_gaussian`: a tensor, or a list of such. -/
inductive ActT where
  | tensor (m : Mat)
  | list (ts : List ActT)

/-- Shape of an `ActT`: mirrors its list structure, recording row lengths of
each tensor. -/
inductive ShapeT where
  | tensor (s : List Nat)
  | list (ss : List ShapeT)

mutual

/-- Shape of an `ActT` value. -/
def actShape : ActT → ShapeT
  | ActT.tensor m => ShapeT.tensor (matShape m)
  | ActT.list ts => ShapeT.list (actShapeList ts)

/-- Shapes of a list of `ActT` values. -/
def actShapeList : List ActT → List ShapeT
  | [] => []
  | a :: rest => actShape a :: actShapeList rest

end

mutual

/-- Embedding of `noise_gaussian` (`dpg.py` 31–38): on a list argument,
recurse per element; on a tensor, add `tf.random_normal(tf.shape(actions),
0, stddev)`. -/
def noise_gaussian (stddev : ℝ) (ω : List Nat → Nat → Nat → ℝ) : ActT → ActT
  | ActT.tensor m =>
      ActT.tensor (matAdd m (randomNormalMat (matShape m) 0 stddev (ω [])))
  | ActT.list ts => ActT.list (noise_gaussian_each stddev ω 0 ts)

/-- The list branch of `noise_gaussian`: noise each element with an
independent slice of the randomness oracle. -/
def noise_gaussian_each (stddev : ℝ) (ω : List Nat → Nat → Nat → ℝ)
    (t : Nat) : List ActT → List ActT
  | [] => []
  | a :: rest =>
      noise_gaussian stddev (fun p => ω (t :: p)) a ::
        noise_gaussian_each stddev ω (t + 1) rest

end

/-! ## Hyperparameter records (`mdp`, `spec` arguments) -/

/-- MDP specification: `mdp.state_dim`, `mdp.action_dim` (spec §3). -/
structure MDPSpec where
  state_dim : Nat
  action_dim : Nat
deriving DecidableEq

/-- Model specification: `spec.policy_dims`, `spec.critic_dims` (spec §3). -/
structure ModelSpec where
  policy_dims : List Nat
  critic_dims : List Nat
deriving DecidableEq

/-! ## Value-level networks

`util.mlp` lives in `rlcomp/util.py`, outside `src/`.  At the value level we
therefore model an MLP by the function it denotes once its weights are fixed:
a policy network is a `Vec → Vec` (state to action for one example), and the
pre-output-nonlinearity critic stack is a `Vec → ℝ` (concatenated state and
action to one scalar, the final `squeeze` of the width-1 output folded in).
Parameter sharing is treated at the variable-store layer below; two critic
evaluations that share parameters are two applications of the same
function. -/

/-- Value level of `policy_model` (`dpg.py` 15–28): apply the policy MLP
(weights baked into `θ`) to every example of the input batch. -/
def policy_model (θ : Vec → Vec) (inp : Mat) : Mat := inp.map θ

/-- Value level of `critic_model` (`dpg.py` 41–58) on one example:
`tf.squeeze(tf.tanh(mlp(tf.concat(1, [inp, actions]), ...)))` with the MLP
weights baked into `θ`. -/
noncomputable def criticEval (θ : Vec → ℝ) (inp actions : Vec) : ℝ :=
  Real.tanh (θ (inp ++ actions))

/-- Value level of `critic_model` on a batch: one Q-value per example. -/
noncomputable def critic_model (θ : Vec → ℝ) (inp actions : Mat) : List ℝ :=
  List.zipWith (criticEval θ) inp actions

/-! ## Base `DPG` graph, value level (`dpg.py` 61–155)

`DPG.__init__` runs `_make_params; _make_inputs; _make_graph;
_make_objectives; _make_updates`.  At the value level the placeholders made
by `_make_inputs` become arguments (`inputs`, `q_targets`), the noiser is the
pluggable `self.noiser` argument, and the four networks are the policy,
critic, and their two freshly parameterised tracking copies.  `critic_on`
and `critic_off` apply the same critic function `θc`: the `reuse=True` of the
second `critic_model` call makes both evaluations share one parameter set,
which is proved at the variable-store layer. -/

/-- The tensor handles of a constructed base `DPG` instance. -/
structure DPGGraph where
  inputs : Mat
  q_targets : List ℝ
  a_pred : Mat
  a_explore : Mat
  critic_on : List ℝ
  critic_off : List ℝ
  a_pred_track : Mat
  critic_on_track : List ℝ
  policy_objective : ℝ
  critic_objective : ℝ

/-- Value level of base `DPG` construction: `_make_graph` (`dpg.py`
109–127) followed by `_make_objectives` (129–145). -/
noncomputable def DPG_construct (θp : Vec → Vec) (θc : Vec → ℝ)
    (θp_track : Vec → Vec) (θc_track : Vec → ℝ) (noiser : Mat → Mat)
    (inputs : Mat) (q_targets : List ℝ) : DPGGraph :=
  let a_pred := policy_model θp inputs
  let a_explore := noiser a_pred
  let critic_on := critic_model θc inputs a_pred
  let critic_off := critic_model θc inputs a_explore
  let a_pred_track := policy_model θp_track inputs
  let critic_on_track := critic_model θc_track inputs a_pred
  { inputs := inputs
    q_targets := q_targets
    a_pred := a_pred
    a_explore := a_explore
    critic_on := critic_on
    critic_off := critic_off
    a_pred_track := a_pred_track
    critic_on_track := critic_on_track
    -- Policy objective: maximize on-policy critic activations (line 141)
    policy_objective := -mean critic_on
    -- Critic objective: minimize MSE of off-policy Q-value predictions
    -- (lines 144-145)
    critic_objective :=
      mean (List.zipWith (fun c q => (c - q) ^ 2) critic_off q_targets) }

/-! ## Abstract methods (`RecurrentDPG`, `PointerNetDPG`)

`RecurrentDPG._loop_function` (`dpg.py` 302–310), `RecurrentDPG.
harden_actions` (321–331) and `PointerNetDPG.harden_actions` (534–544) all
consist of a single `raise NotImplementedError("abstract method")`.  Fallible
Python code is embedded as `Except String`; raising `NotImplementedError`
becomes the error value below. -/

/-- The embedded `NotImplementedError("abstract method")`. -/
def notImplemented : String := "NotImplementedError: abstract method"

/-- Embedding of `RecurrentDPG._loop_function` without a subclass override
(`dpg.py` 302–310): always raises. -/
def RecurrentDPG_loop_function : Except String (Vec → Nat → Vec) :=
  Except.error notImplemented

/-- Embedding of `RecurrentDPG.harden_actions` without a subclass override
(`dpg.py` 321–331): always raises, for every list of action matrices. -/
def RecurrentDPG_harden_actions (action_list : List Mat) :
    Except String (List Mat) :=
  Except.error notImplemented

/-- Embedding of `PointerNetDPG.harden_actions` (`dpg.py` 534–544): always
raises, for every list of action matrices. -/
def PointerNetDPG_harden_actions (action_list : List Mat) :
    Except String (List Mat) :=
  Except.error notImplemented

/-! ## `RecurrentDPG` graph, value level (`dpg.py` 158–331)

The rollout is computed per example: every operation in `_make_graph` acts
elementwise across the batch, so one example slice carries the whole
structure.  `tensorflow.models.rnn.seq2seq.rnn_decoder` is outside this
repository; it is modelled from the spec below.  The GRU decoder cell and
the policy MLP are parameters (their weights live at the store layer). -/

/-- Embedding of `RecurrentDPG.PolicyRNNCell.__call__` (`dpg.py` 223–230):
run the wrapped cell, then map its output into action space with the policy
MLP; the cell state passes through. -/
def PolicyRNNCell_call (cell : Vec → Vec → Vec × Vec) (θp : Vec → Vec)
    (inputs state : Vec) : Vec × Vec :=
  let p := cell inputs state
  (θp p.1, p.2)

/-- Modelled from the spec: `seq2seq.rnn_decoder` with a `loop_function`
(external sequence-decoder primitive, spec §4.6/§6).  Step `t` consumes
input `inpOf t` and the previous state; the first input is the supplied
dummy, every later input is `loop` of the previous output.  `rnn_decoder_roll
cell loop inp0 st0 t` is the pair (input consumed at step `t`, state entering
step `t`). -/
def rnn_decoder_roll (cell : Vec → Vec → Vec × Vec) (loop : Vec → Nat → Vec)
    (inp0 st0 : Vec) : Nat → Vec × Vec
  | 0 => (inp0, st0)
  | t + 1 =>
      let p := rnn_decoder_roll cell loop inp0 st0 t
      let q := cell p.1 p.2
      (loop q.1 t, q.2)

/-- Output of decoder step `t`: the cell applied to that step's input and
incoming state. -/
def rnn_decoder_out (cell : Vec → Vec → Vec × Vec) (loop : Vec → Nat → Vec)
    (inp0 st0 : Vec) (t : Nat) : Vec × Vec :=
  let p := rnn_decoder_roll cell loop inp0 st0 t
  cell p.1 p.2

/-- The tensor handles of a constructed (concrete-subclass) `RecurrentDPG`
instance, one example slice. -/
structure RecurrentGraph where
  a_pred : List Vec
  decoder_states : List Vec
  a_explore : List Vec
  critic_on_seq : List ℝ
  critic_off_seq : List ℝ
  decoder_state_ind : Vec
  decoder_action_ind : Vec
  a_pred_ind : Vec
  a_explore_ind : Vec
  critic_on : ℝ
  critic_off : ℝ

/-- Value level of `RecurrentDPG._make_graph` (`dpg.py` 232–281) for a
concrete subclass supplying `loopFn` as its `_loop_function`.  `gru` is the
wrapped `GRUCell`, `θp` the policy MLP of `PolicyRNNCell`, `θc` the critic
MLP; `noiserSeq`/`noiserInd` are the instance noiser applied at the two call
sites (a list of per-timestep actions, a single action tensor).  `dsi` and
`dai` are the `decoder_state_ind` and `decoder_action_ind` placeholders from
`_make_inputs` (192–196), `sdim` the GRU state size
(`spec.policy_dims[0]`). -/
noncomputable def RecurrentDPG_construct (gru : Vec → Vec → Vec × Vec)
    (θp : Vec → Vec) (θc : Vec → ℝ) (loopFn : Vec → Nat → Vec)
    (noiserSeq : List Vec → List Vec) (noiserInd : Vec → Vec)
    (inputs dsi dai : Vec) (input_dim sdim T : Nat) : RecurrentGraph :=
  let decoder_cell := PolicyRNNCell_call gru θp
  -- dummy decoder inputs (lines 236-243) and zero initial state (249-251)
  let dummy : Vec := List.replicate input_dim 0
  let init : Vec := List.replicate sdim 0
  let a_pred := (List.range T).map
    (fun t => (rnn_decoder_out decoder_cell loopFn dummy init t).1)
  -- `self.decoder_states = self.decoder_states[1:]` (line 257): the state
  -- produced by each unrolled step, the initial state dropped.
  let decoder_states := (List.range T).map
    (fun t => (rnn_decoder_out decoder_cell loopFn dummy init t).2)
  let a_explore := noiserSeq a_pred
  -- `_critic` (lines 312-319): one critic evaluation per timestep.
  let critic_on_seq := List.zipWith (criticEval θc) decoder_states a_pred
  let critic_off_seq := List.zipWith (criticEval θc) decoder_states a_explore
  -- single-step helper path (lines 266-277)
  let a_pred_ind := (decoder_cell inputs dsi).1
  let a_explore_ind := noiserInd a_pred_ind
  { a_pred := a_pred
    decoder_states := decoder_states
    a_explore := a_explore
    critic_on_seq := critic_on_seq
    critic_off_seq := critic_off_seq
    decoder_state_ind := dsi
    decoder_action_ind := dai
    a_pred_ind := a_pred_ind
    a_explore_ind := a_explore_ind
    critic_on := criticEval θc dsi a_pred_ind
    critic_off := criticEval θc dsi a_explore_ind }

/-- Embedding of an attempted construction of `RecurrentDPG` itself (no
subclass override of `_loop_function`): `_make_graph` first calls
`self._loop_function()` (line 247), so construction can proceed only if that
call returns a function. -/
noncomputable def RecurrentDPG_construct_abstract (gru : Vec → Vec → Vec × Vec)
    (θp : Vec → Vec) (θc : Vec → ℝ) (noiserSeq : List Vec → List Vec)
    (noiserInd : Vec → Vec) (inputs dsi dai : Vec) (input_dim sdim T : Nat) :
    Except String RecurrentGraph :=
  RecurrentDPG_loop_function.bind (fun loopFn =>
    Except.ok (RecurrentDPG_construct gru θp θc loopFn noiserSeq noiserInd
      inputs dsi dai input_dim sdim T))

/-! ## `PointerNetDPG` graph, value level (`dpg.py` 334–532)

Again one example slice.  `tf.nn.softmax` acts across the feature axis of
one example, so per example it is the usual softmax on a vector.
`rlcomp.pointer_network.ptr_net_decoder` and `rnn.rnn` are outside `src/`
and modelled from the spec; the GRU encoder and decoder cells are parameters
(for a GRU the step output equals the new hidden state, so a cell is a
function `input → state → state`). -/

/-- Modelled from the spec: `tf.nn.softmax` on one example
(external tensor-execution primitive). -/
noncomputable def softmax (x : Vec) : Vec :=
  x.map (fun xi => Real.exp xi / (x.map Real.exp).sum)

/-- Embedding of the `loop_fn` built by `PointerNetDPG._loop_function`
(`dpg.py` 494–513): softmax the step output, use it as attention weights
over the retained encoder states, and return the weighted sum of memory
vectors (`tf.reduce_sum(attn_states * tf.expand_dims(output_t, 2), 1)`). -/
noncomputable def PointerNetDPG_loop_fn (encoder_states : List Vec)
    (output_t : Vec) (t : Nat) : Vec :=
  let weights := softmax output_t
  vsum (List.zipWith (fun w mem => mem.map (fun x => w * x)) weights
    encoder_states)

/-- Modelled from the spec: `rnn.rnn` (external recurrent primitive) —
consume the input sequence from the given initial state and retain every
intermediate hidden state (`self.encoder_states`, one per input). -/
def rnn_states (cell : Vec → Vec → Vec) (st : Vec) : List Vec → List Vec
  | [] => []
  | x :: xs =>
      let st2 := cell x st
      st2 :: rnn_states cell st2 xs

/-- Embedding of the per-timestep critic state representation built inside
`PointerNetDPG._critic` (`dpg.py` 518–522): at each timestep,
`tf.concat(1, [inputs_t, states_t])` — the decoder input, then the decoder
hidden state, concatenated along the feature axis. -/
def pointer_critic_states (dec_inputs dec_states : List Vec) : List Vec :=
  List.zipWith (fun inputs_t states_t => inputs_t ++ states_t)
    dec_inputs dec_states

/-- The per-timestep critic state representation as claim C8 words it:
hidden state first, then input.  Stated from the spec sentence, for
comparison with `pointer_critic_states` above. -/
def pointer_critic_states_claim (dec_inputs dec_states : List Vec) :
    List Vec :=
  List.zipWith (fun inputs_t states_t => states_t ++ inputs_t)
    dec_inputs dec_states

/-- Embedding of `PointerNetDPG._critic` (`dpg.py` 515–532): evaluate the
critic at every timestep on that timestep's state representation and
action. -/
noncomputable def PointerNetDPG_critic (θc : Vec → ℝ)
    (dec_inputs dec_states actions_lst : List Vec) : List ℝ :=
  let states_lst := pointer_critic_states dec_inputs dec_states
  List.zipWith (fun states_t actions_t => criticEval θc states_t actions_t)
    states_lst actions_lst

/-- The tensor handles of a constructed `PointerNetDPG` instance (graph
part), one example slice. -/
structure PointerGraph where
  encoder_states : List Vec
  a_pred : List Vec
  decoder_inputs : List Vec
  decoder_states : List Vec
  a_explore : List Vec
  critic_on : List ℝ
  critic_off : List ℝ

/-- Value level of `PointerNetDPG._make_graph` (`dpg.py` 387–445) without
batch normalization (`bn_actions=False`; the batch-norm branch pools
statistics across the batch and is treated only at the variable-store
layer).  `ptr_net_decoder` is modelled from the spec as the decoder
unrolling of `rnn_decoder_roll`, started from the encoder's final state,
returning per-step outputs, the dynamically computed inputs
(`self.decoder_inputs`, line 417) and per-step states with the initial
state stripped (line 419). -/
noncomputable def PointerNetDPG_make_graph (encCell decCell : Vec → Vec → Vec)
    (θc : Vec → ℝ) (noiserSeq : List Vec → List Vec) (inputs : List Vec)
    (input_dim sdim T : Nat) : PointerGraph :=
  let encoder_states := rnn_states encCell (List.replicate sdim 0) inputs
  let loopF := PointerNetDPG_loop_fn encoder_states
  -- a GRU cell's step output is its new hidden state
  let cell : Vec → Vec → Vec × Vec := fun i s => (decCell i s, decCell i s)
  -- decoder starts from the encoder's final state (line 414)
  let init := encoder_states.getLastD (List.replicate sdim 0)
  -- dummy first decoder input (lines 403-410)
  let dummy : Vec := List.replicate input_dim 0
  let a_pred := (List.range T).map
    (fun t => (rnn_decoder_out cell loopF dummy init t).1)
  let decoder_inputs := (List.range T).map
    (fun t => (rnn_decoder_roll cell loopF dummy init t).1)
  let decoder_states := (List.range T).map
    (fun t => (rnn_decoder_out cell loopF dummy init t).2)
  let a_explore := noiserSeq a_pred
  { encoder_states := encoder_states
    a_pred := a_pred
    decoder_inputs := decoder_inputs
    decoder_states := decoder_states
    a_explore := a_explore
    critic_on := PointerNetDPG_critic θc decoder_inputs decoder_states a_pred
    critic_off :=
      PointerNetDPG_critic θc decoder_inputs decoder_states a_explore }

/-! ## Variable-store layer

TensorFlow's construction-time variable bookkeeping.  A trainable variable
is identified by the path of `tf.variable_scope` names it was created under
plus a numeric leaf index (the Python code names leaves `"w0"`, `"b0"`, …;
the index is a bijective rendering of those names).  The scans in
`_make_objectives` match the substring `"scope/"` against the rendered
`var.name`; since scope components never contain `'/'` and no component
created by this program other than `"policy"`, `"critic"`, `"encoder"`,
`"decoder"` ends in one of those words (`"policy_track"` ends in `"track"`),
the substring test `"policy/" in var.name` holds exactly when the component
`"policy"` occurs in the variable's scope path, and likewise for the other
three; the filters below are stated that way. -/

/-- A variable name: scope path plus leaf index. -/
structure VarName where
  path : List String
  leaf : Nat
deriving DecidableEq, Repr

/-- A created trainable variable: name plus identity.  Two evaluations share
parameters exactly when they hold variables with the same `id`. -/
structure TFVar where
  name : VarName
  id : Nat
deriving DecidableEq, Repr

/-- The graph's variable store: every variable created so far (in creation
order, as `tf.all_variables()` enumerates them) and a fresh-identity
counter. -/
structure GraphState where
  vars : List TFVar
  fresh : Nat
deriving DecidableEq, Repr

/-- The empty graph (a fresh `tf.Graph`, before any DPG is built). -/
def GraphState.empty : GraphState := ⟨[], 0⟩

/-- Modelled from the spec: `tf.get_variable` under `reuse=None` — create a
variable with the given name and a fresh identity. -/
def createVar (name : VarName) (s : GraphState) : GraphState × Nat :=
  (⟨s.vars ++ [⟨name, s.fresh⟩], s.fresh + 1⟩, s.fresh)

/-- Modelled from the spec: `tf.get_variable` under `reuse=True` — look the
name up among the created variables. -/
def findVar (name : VarName) (s : GraphState) : Option Nat :=
  (s.vars.find? (fun v => v.name = name)).map TFVar.id

/-- The variables a `varsUnder`-creation appends: leaves `0..n-1` under one
scope path, with consecutive identities from `startId`. -/
def varsUnder (path : List String) (n : Nat) (startId : Nat) : List TFVar :=
  (List.range n).map (fun i => ⟨⟨path, i⟩, startId + i⟩)

/-- Create `n` variables (leaves `0..n-1`) under a scope path: the store
behaviour of building one MLP (or cell) under `tf.variable_scope(path)`
without reuse.  Returns the created identities. -/
def createVarsUnder (path : List String) (n : Nat) (s : GraphState) :
    GraphState × List Nat :=
  (⟨s.vars ++ varsUnder path n s.fresh, s.fresh + n⟩,
    (List.range n).map (fun i => s.fresh + i))

/-- Look up `n` variables (leaves `0..n-1`) under a scope path: the store
behaviour of rebuilding the same MLP under `reuse=True`. -/
def lookupVarsUnder (path : List String) (n : Nat) (s : GraphState) :
    List (Option Nat) :=
  (List.range n).map (fun i => findVar ⟨path, i⟩ s)

/-- Modelled from the spec: the number of parameter tensors `util.mlp`
creates (`rlcomp/util.py` is outside `src/`) — one weight per affine layer
(`hidden.length + 1` of them), one bias per hidden layer, and an output bias
exactly when `bias_output` is set. -/
def mlpVarCount (hidden : List Nat) (bias_output : Bool) : Nat :=
  (hidden.length + 1) + hidden.length + (if bias_output then 1 else 0)

/-! ## Base `DPG`, store layer (`dpg.py` 89–155)

Construction happens inside `tf.variable_scope(self.name)` with
`name="dpg"`.  `_make_graph` builds, in order: the policy under
`dpg/policy`; the critic under `dpg/critic` (fresh); the critic again under
`dpg/critic` with `reuse=True`; the tracking policy under
`dpg/policy_track`; the tracking critic under `dpg/critic_track`.
`_make_objectives` then scans all variables. -/

/-- Store-layer record of a constructed base `DPG` instance. -/
structure DPGVars where
  final : GraphState
  policyIds : List Nat
  criticIds : List Nat
  criticOffIds : List (Option Nat)
  policyTrackIds : List Nat
  criticTrackIds : List Nat
  policy_params : List TFVar
  critic_params : List TFVar

/-- The `"policy/" in var.name` scan of `DPG._make_objectives` (`dpg.py`
133–134), rendered on scope components (see the section comment). -/
def dpg_policy_filter (vars : List TFVar) : List TFVar :=
  vars.filter (fun v => "policy" ∈ v.name.path)

/-- The `"critic/" in var.name` scan of `DPG._make_objectives` (`dpg.py`
135–136). -/
def dpg_critic_filter (vars : List TFVar) : List TFVar :=
  vars.filter (fun v => "critic" ∈ v.name.path)

/-- Store layer of base `DPG` construction from a fresh graph:
`_make_graph` (`dpg.py` 109–127) then the parameter partition of
`_make_objectives` (133–138). -/
def DPG_construct_vars (spec : ModelSpec) : DPGVars :=
  let np := mlpVarCount spec.policy_dims false
  let nc := mlpVarCount spec.critic_dims true
  let r1 := createVarsUnder ["dpg", "policy"] np GraphState.empty
  let r2 := createVarsUnder ["dpg", "critic"] nc r1.1
  -- `critic_model(..., name="critic", reuse=True)` (lines 118-119)
  let criticOffIds := lookupVarsUnder ["dpg", "critic"] nc r2.1
  let r3 := createVarsUnder ["dpg", "policy_track"] np r2.1
  let r4 := createVarsUnder ["dpg", "critic_track"] nc r3.1
  { final := r4.1
    policyIds := r1.2
    criticIds := r2.2
    criticOffIds := criticOffIds
    policyTrackIds := r3.2
    criticTrackIds := r4.2
    policy_params := dpg_policy_filter r4.1.vars
    critic_params := dpg_critic_filter r4.1.vars }

/-! ## Per-timestep critic, store layer (`dpg.py` 312–319 and 515–532)

Both sequence variants build their per-timestep critic with
`critic_model(..., name="critic", reuse=reuse_t)` where
`reuse_t = (reuse or t > 0) or None`: the very first on-policy timestep
creates the parameters, every other call reuses them. -/

/-- Store behaviour of one `critic_model(..., name="critic", reuse=reuse_t)`
call inside the `"dpg"` scope. -/
def seq_critic_step (nc : Nat) (reuse_t : Bool) (s : GraphState) :
    GraphState × List (Option Nat) :=
  if reuse_t then (s, lookupVarsUnder ["dpg", "critic"] nc s)
  else
    let r := createVarsUnder ["dpg", "critic"] nc s
    (r.1, r.2.map some)

/-- Run the per-timestep critic calls for the given sequence of `reuse_t`
flags, threading the store. -/
def seq_critic_aux (nc : Nat) : List Bool → GraphState →
    GraphState × List (List (Option Nat))
  | [], s => (s, [])
  | r :: rs, s =>
      let p := seq_critic_step nc r s
      let q := seq_critic_aux nc rs p.1
      (q.1, p.2 :: q.2)

/-- Store behaviour of `_critic(states, actions, reuse)` over `T` timesteps
(`dpg.py` 312–319 and 515–532): `reuse_t = (reuse or t > 0) or None`. -/
def seq_critic_vars (nc : Nat) (reuse : Bool) (T : Nat) (s : GraphState) :
    GraphState × List (List (Option Nat)) :=
  seq_critic_aux nc ((List.range T).map (fun t => reuse || decide (0 < t))) s

/-! ## `_make_updates` (`dpg.py` 147–155, 283–285, 490–492) -/

/-- A tracking-update operation: `assign tracked live` stands for the op
`tracked ← tracked + tau * (live − tracked)`; `group` is `tf.group`. -/
inductive TrackOp where
  | assign (tracked live : Nat) : TrackOp
  | group (ops : List TrackOp) : TrackOp
deriving Repr

/-- Modelled from the spec: `util.track_model_updates(live, track, tau)`
(`rlcomp/util.py` is outside `src/`) — for every variable under the live
scope, pair it by leaf with its counterpart under the tracking scope and
emit one grouped soft-update op; a live variable with no tracked counterpart
is a configuration error (`none`). -/
def track_model_updates (liveScope trackScope : List String)
    (s : GraphState) : Option TrackOp :=
  ((s.vars.filter (fun v => v.name.path = liveScope)).mapM
    (fun v => (findVar ⟨trackScope, v.name.leaf⟩ s).map
      (fun tid => TrackOp.assign tid v.id))).map TrackOp.group

/-- Embedding of `DPG._make_updates` (`dpg.py` 147–155): group the policy
and critic tracking updates into one op.  The store is not modified — the
op is only described, executed later by the client. -/
def DPG_make_updates (s : GraphState) : GraphState × Option TrackOp :=
  (s, (track_model_updates ["dpg", "policy"] ["dpg", "policy_track"] s).bind
    (fun p => (track_model_updates ["dpg", "critic"] ["dpg", "critic_track"]
      s).map (fun c => TrackOp.group [p, c])))

/-- Embedding of `RecurrentDPG._make_updates` (`dpg.py` 283–285): the body
is `pass` — no op is built and the store is untouched. -/
def RecurrentDPG_make_updates (s : GraphState) :
    GraphState × Option TrackOp :=
  (s, none)

/-- Embedding of `PointerNetDPG._make_updates` (`dpg.py` 490–492): the body
is `pass` — no op is built and the store is untouched. -/
def PointerNetDPG_make_updates (s : GraphState) :
    GraphState × Option TrackOp :=
  (s, none)

/-! ## `RecurrentDPG`, store layer (`dpg.py` 232–277)

`_make_graph` first unrolls the decoder, creating the GRU cell's and the
`PolicyRNNCell` policy MLP's parameters under the decoder scope (the TF
`rnn_decoder` scoping is outside `src/`; its parameter count is the
parameter `npol` and its scope path contains the `"policy"` component of
`policy_model`'s `tf.variable_scope`), then runs `_critic` on-policy
(`reuse=None`) and off-policy (`reuse=True`), then the single-step helper
rebuilds the critic twice more with `reuse=True` (lines 270–277). -/

/-- The scope path of the decoder policy MLP: `policy_model` is called
inside `PolicyRNNCell.__call__` under the cell's scope inside the decoder
unrolling, so the rendered name contains `".../PolicyRNNCell/policy/..."`. -/
def recurrentPolicyPath : List String :=
  ["dpg", "rnn_decoder", "PolicyRNNCell", "policy"]

/-- Store-layer record of a constructed concrete `RecurrentDPG` instance. -/
structure RecurrentVars where
  final : GraphState
  policyIds : List Nat
  criticOnSeqIds : List (List (Option Nat))
  criticOffSeqIds : List (List (Option Nat))
  criticOnIndIds : List (Option Nat)
  criticOffIndIds : List (Option Nat)
  policy_params : List TFVar
  critic_params : List TFVar

/-- Store layer of `RecurrentDPG._make_graph` from a fresh graph, followed
by the parameter partition of the inherited `DPG._make_objectives`
(`dpg.py` 129–138). -/
def RecurrentDPG_construct_vars (npol : Nat) (spec : ModelSpec) (T : Nat) :
    RecurrentVars :=
  let nc := mlpVarCount spec.critic_dims true
  let r1 := createVarsUnder recurrentPolicyPath npol GraphState.empty
  let r2 := seq_critic_vars nc false T r1.1
  let r3 := seq_critic_vars nc true T r2.1
  -- lines 270-277: two more `critic_model(..., reuse=True)` calls
  let onInd := lookupVarsUnder ["dpg", "critic"] nc r3.1
  let offInd := lookupVarsUnder ["dpg", "critic"] nc r3.1
  { final := r3.1
    policyIds := r1.2
    criticOnSeqIds := r2.2
    criticOffSeqIds := r3.2
    criticOnIndIds := onInd
    criticOffIndIds := offInd
    policy_params := dpg_policy_filter r3.1.vars
    critic_params := dpg_critic_filter r3.1.vars }

/-! ## `PointerNetDPG`, store layer (`dpg.py` 350–492) -/

/-- Store-layer record of a constructed `PointerNetDPG` instance. -/
structure PointerVars where
  final : GraphState
  bnIds : List Nat
  encoderIds : List Nat
  decoderIds : List Nat
  criticOnIds : List (List (Option Nat))
  criticOffIds : List (List (Option Nat))
  policy_params : List TFVar
  critic_params : List TFVar

/-- The `"encoder/" in var.name or "decoder/" in var.name` scan of
`PointerNetDPG._policy_params` (`dpg.py` 452–454). -/
def pointer_policy_filter (vars : List TFVar) : List TFVar :=
  vars.filter (fun v => "encoder" ∈ v.name.path ∨ "decoder" ∈ v.name.path)

/-- Store layer of `PointerNetDPG` construction after the constructor's
assertion: `_make_params` (`dpg.py` 369–379, the two batch-norm variables
`beta`, `gamma` under scope `bn` when `bn_actions`), then `_make_graph`
(the encoder cell under `encoder`, the decoder cell under `decoder`, whose
parameter counts `nEnc`, `nDec` belong to the TF GRU cell outside `src/`,
then `_critic` on-policy and off-policy), then the parameter partition of
`_make_objectives` (456–467, appending the batch-norm pair to both sets
when `bn_actions`). -/
def PointerNetDPG_build_vars (spec : ModelSpec) (nEnc nDec : Nat)
    (bn_actions : Bool) (T : Nat) : PointerVars :=
  let nc := mlpVarCount spec.critic_dims true
  let r0 := if bn_actions
    then createVarsUnder ["dpg", "bn"] 2 GraphState.empty
    else (GraphState.empty, [])
  let r1 := createVarsUnder ["dpg", "encoder"] nEnc r0.1
  let r2 := createVarsUnder ["dpg", "decoder"] nDec r1.1
  let r3 := seq_critic_vars nc false T r2.1
  let r4 := seq_critic_vars nc true T r3.1
  let bnVars := r0.1.vars
  { final := r4.1
    bnIds := r0.2
    encoderIds := r1.2
    decoderIds := r2.2
    criticOnIds := r3.2
    criticOffIds := r4.2
    policy_params := pointer_policy_filter r4.1.vars ++
      (if bn_actions then bnVars else [])
    critic_params := dpg_critic_filter r4.1.vars ++
      (if bn_actions then bnVars else []) }

/-- The batch-norm scale variable `bn_beta` (`dpg.py` 373): the first
variable a `bn_actions` instance creates (under scope `bn`, leaf 0). -/
def bn_beta_var : TFVar := ⟨⟨["dpg", "bn"], 0⟩, 0⟩

/-- The batch-norm shift variable `bn_gamma` (`dpg.py` 374–375): the second
variable a `bn_actions` instance creates (under scope `bn`, leaf 1). -/
def bn_gamma_var : TFVar := ⟨⟨["dpg", "bn"], 1⟩, 1⟩

/-- Embedding of `PointerNetDPG.__init__` (`dpg.py` 350–367): the assertion
`assert mdp.state_dim == spec.policy_dims[0] * 2` runs before
`super().__init__`, hence before any variable or tensor is created; only
when it passes does graph construction proceed. -/
def PointerNetDPG_construct (mdp : MDPSpec) (spec : ModelSpec)
    (input_dim seq_length : Nat) (bn_actions : Bool) (nEnc nDec : Nat) :
    Except String PointerVars :=
  if mdp.state_dim = spec.policy_dims.headI * 2 then
    Except.ok (PointerNetDPG_build_vars spec nEnc nDec bn_actions seq_length)
  else Except.error "AssertionError"

/-- The identities of one critic parameter set created with consecutive
identities from `start`: what every reusing `critic_model` call returns once
the set exists. -/
def sharedCriticIds (start nc : Nat) : List (Option Nat) :=
  (List.range nc).map (fun i => some (start + i))

/-! ## Store-layer lemmas -/

theorem mem_varsUnder {v : TFVar} {p : List String} {n k : Nat} :
    v ∈ varsUnder p n k ↔ ∃ i, i < n ∧ v = ⟨⟨p, i⟩, k + i⟩ := by
  simp only [varsUnder, List.mem_map, List.mem_range]
  constructor
  · rintro ⟨i, hi, rfl⟩; exact ⟨i, hi, rfl⟩
  · rintro ⟨i, hi, rfl⟩; exact ⟨i, hi, rfl⟩

theorem find?_none_of_path_ne {l : List TFVar} {q : VarName}
    (h : ∀ v ∈ l, v.name.path ≠ q.path) :
    l.find? (fun v => v.name = q) = none := by
  rw [List.find?_eq_none]
  intro x hx
  simp only [decide_eq_true_eq]
  intro hq
  exact h x hx (by rw [hq])

theorem varsUnder_path_eq {v : TFVar} {p : List String} {n k : Nat}
    (h : v ∈ varsUnder p n k) : v.name.path = p := by
  rcases mem_varsUnder.mp h with ⟨i, _, rfl⟩
  rfl

theorem find?_varsUnder_big {p : List String} {n k i : Nat} (h : n ≤ i) :
    (varsUnder p n k).find? (fun v => v.name = ⟨p, i⟩) = none := by
  rw [List.find?_eq_none]
  intro x hx
  rcases mem_varsUnder.mp hx with ⟨j, hj, rfl⟩
  simp only [decide_eq_true_eq, VarName.mk.injEq]
  rintro ⟨-, rfl⟩
  omega

theorem find?_varsUnder_self {p : List String} {n k i : Nat} (h : i < n) :
    (varsUnder p n k).find? (fun v => v.name = ⟨p, i⟩) =
      some ⟨⟨p, i⟩, k + i⟩ := by
  induction n with
  | zero => omega
  | succ n ih =>
      have hsplit : varsUnder p (n + 1) k =
          varsUnder p n k ++ [⟨⟨p, n⟩, k + n⟩] := by
        simp [varsUnder, List.range_succ]
      rw [hsplit, List.find?_append]
      rcases Nat.lt_succ_iff_lt_or_eq.mp h with h' | rfl
      · rw [ih h']; rfl
      · rw [find?_varsUnder_big (Nat.le_refl i)]
        simp

theorem findVar_pre_varsUnder {pre : List TFVar} {p : List String}
    {n k i f : Nat} (hpre : ∀ v ∈ pre, v.name.path ≠ p) (h : i < n) :
    findVar ⟨p, i⟩ ⟨pre ++ varsUnder p n k, f⟩ = some (k + i) := by
  unfold findVar
  rw [List.find?_append, find?_none_of_path_ne hpre,
    find?_varsUnder_self h]
  rfl

theorem lookupVarsUnder_pre {pre : List TFVar} {p : List String}
    {n k f : Nat} (hpre : ∀ v ∈ pre, v.name.path ≠ p) :
    lookupVarsUnder p n ⟨pre ++ varsUnder p n k, f⟩ =
      (List.range n).map (fun i => some (k + i)) := by
  unfold lookupVarsUnder
  apply List.map_congr_left
  intro i hi
  exact findVar_pre_varsUnder hpre (List.mem_range.mp hi)

theorem seq_critic_aux_true (nc m : Nat) (s : GraphState) :
    seq_critic_aux nc (List.replicate m true) s =
      (s, List.replicate m (lookupVarsUnder ["dpg", "critic"] nc s)) := by
  induction m with
  | zero => rfl
  | succ m ih =>
      simp [List.replicate_succ, seq_critic_aux, seq_critic_step, ih]

theorem range_map_decide_pos (T : Nat) :
    (List.range (T + 1)).map (fun t => decide (0 < t)) =
      false :: List.replicate T true := by
  induction T with
  | zero => rfl
  | succ T ih =>
      rw [List.range_succ, List.map_append, ih]
      have : false :: List.replicate (T + 1) true =
          (false :: List.replicate T true) ++ [true] := by
        simp [List.replicate_succ']
      rw [this]
      simp

theorem seq_critic_vars_false (nc T : Nat) (s : GraphState) :
    seq_critic_vars nc false (T + 1) s =
      (((createVarsUnder ["dpg", "critic"] nc s).1),
        ((createVarsUnder ["dpg", "critic"] nc s).2.map some ::
          List.replicate T (lookupVarsUnder ["dpg", "critic"] nc
            (createVarsUnder ["dpg", "critic"] nc s).1))) := by
  unfold seq_critic_vars
  have hflags : (List.range (T + 1)).map
      (fun t => false || decide (0 < t)) = false :: List.replicate T true := by
    simpa using range_map_decide_pos T
  rw [hflags]
  simp [seq_critic_aux, seq_critic_step, seq_critic_aux_true]

theorem seq_critic_vars_true (nc T : Nat) (s : GraphState) :
    seq_critic_vars nc true T s =
      (s, List.replicate T (lookupVarsUnder ["dpg", "critic"] nc s)) := by
  unfold seq_critic_vars
  have hflags : (List.range T).map (fun t => true || decide (0 < t)) =
      List.replicate T true := by
    simp
  rw [hflags, seq_critic_aux_true]

theorem filter_varsUnder_true {pred : TFVar → Bool} {p : List String}
    {n k : Nat} (h : ∀ i, i < n → pred ⟨⟨p, i⟩, k + i⟩ = true) :
    (varsUnder p n k).filter pred = varsUnder p n k :=
  List.filter_eq_self.mpr (fun v hv => by
    rcases mem_varsUnder.mp hv with ⟨i, hi, rfl⟩
    exact h i hi)

theorem filter_varsUnder_false {pred : TFVar → Bool} {p : List String}
    {n k : Nat} (h : ∀ i, i < n → pred ⟨⟨p, i⟩, k + i⟩ = false) :
    (varsUnder p n k).filter pred = [] := by
  rw [List.filter_eq_nil_iff]
  intro v hv
  rcases mem_varsUnder.mp hv with ⟨i, hi, rfl⟩
  simp [h i hi]

theorem not_mem_varsUnder_of_path {v : TFVar} {p : List String} {n k : Nat}
    (h : v.name.path ≠ p) : v ∉ varsUnder p n k := fun hv =>
  h (varsUnder_path_eq hv)

theorem DPG_construct_vars_criticOff (spec : ModelSpec) :
    (DPG_construct_vars spec).criticOffIds =
      (DPG_construct_vars spec).criticIds.map some := by
  unfold DPG_construct_vars
  simp only [createVarsUnder, GraphState.empty, List.nil_append, Nat.zero_add]
  rw [lookupVarsUnder_pre (fun v hv => by
    rw [varsUnder_path_eq hv]; decide)]
  simp [List.map_map]

theorem RecurrentDPG_vars_critic_shared (npol : Nat) (spec : ModelSpec)
    (T : Nat) :
    (RecurrentDPG_construct_vars npol spec (T + 1)).criticOnSeqIds =
        sharedCriticIds npol (mlpVarCount spec.critic_dims true) ::
          List.replicate T
            (sharedCriticIds npol (mlpVarCount spec.critic_dims true)) ∧
    (RecurrentDPG_construct_vars npol spec (T + 1)).criticOffSeqIds =
        List.replicate (T + 1)
          (sharedCriticIds npol (mlpVarCount spec.critic_dims true)) ∧
    (RecurrentDPG_construct_vars npol spec (T + 1)).criticOnIndIds =
        sharedCriticIds npol (mlpVarCount spec.critic_dims true) ∧
    (RecurrentDPG_construct_vars npol spec (T + 1)).criticOffIndIds =
        sharedCriticIds npol (mlpVarCount spec.critic_dims true) := by
  simp only [RecurrentDPG_construct_vars, recurrentPolicyPath]
  rw [seq_critic_vars_false, seq_critic_vars_true]
  simp only [createVarsUnder, GraphState.empty, List.nil_append, Nat.zero_add]
  have hlook : ∀ f, lookupVarsUnder ["dpg", "critic"]
      (mlpVarCount spec.critic_dims true)
      ⟨varsUnder ["dpg", "rnn_decoder", "PolicyRNNCell", "policy"] npol 0 ++
        varsUnder ["dpg", "critic"] (mlpVarCount spec.critic_dims true) npol,
        f⟩ = sharedCriticIds npol (mlpVarCount spec.critic_dims true) := by
    intro f
    rw [lookupVarsUnder_pre (fun v hv => by rw [varsUnder_path_eq hv]; decide)]
    rfl
  rw [hlook]
  refine ⟨?_, rfl, rfl, rfl⟩
  simp [sharedCriticIds, List.map_map]

theorem PointerNetDPG_vars_critic_shared (spec : ModelSpec)
    (nEnc nDec : Nat) (bn_actions : Bool) (T : Nat) :
    (PointerNetDPG_build_vars spec nEnc nDec bn_actions (T + 1)).criticOnIds =
        sharedCriticIds ((if bn_actions then 2 else 0) + nEnc + nDec)
            (mlpVarCount spec.critic_dims true) ::
          List.replicate T
            (sharedCriticIds ((if bn_actions then 2 else 0) + nEnc + nDec)
              (mlpVarCount spec.critic_dims true)) ∧
    (PointerNetDPG_build_vars spec nEnc nDec bn_actions (T + 1)).criticOffIds =
        List.replicate (T + 1)
          (sharedCriticIds ((if bn_actions then 2 else 0) + nEnc + nDec)
            (mlpVarCount spec.critic_dims true)) := by
  cases bn_actions with
  | false =>
      simp only [PointerNetDPG_build_vars, Bool.false_eq_true, if_false]
      rw [seq_critic_vars_false, seq_critic_vars_true]
      simp only [createVarsUnder, GraphState.empty, List.nil_append,
        Nat.zero_add]
      have hlook : ∀ f, lookupVarsUnder ["dpg", "critic"]
          (mlpVarCount spec.critic_dims true)
          ⟨(varsUnder ["dpg", "encoder"] nEnc 0 ++
              varsUnder ["dpg", "decoder"] nDec nEnc) ++
            varsUnder ["dpg", "critic"] (mlpVarCount spec.critic_dims true)
              (nEnc + nDec), f⟩ =
            sharedCriticIds (nEnc + nDec)
              (mlpVarCount spec.critic_dims true) := by
        intro f
        rw [lookupVarsUnder_pre (fun v hv => by
          rcases List.mem_append.mp hv with h | h <;>
            rw [varsUnder_path_eq h] <;> decide)]
        rfl
      rw [hlook]
      refine ⟨?_, rfl⟩
      simp [sharedCriticIds, List.map_map]
  | true =>
      simp only [PointerNetDPG_build_vars, if_true]
      rw [seq_critic_vars_false, seq_critic_vars_true]
      simp only [createVarsUnder, GraphState.empty, List.nil_append,
        Nat.zero_add]
      have hlook : ∀ f, lookupVarsUnder ["dpg", "critic"]
          (mlpVarCount spec.critic_dims true)
          ⟨((varsUnder ["dpg", "bn"] 2 0 ++
              varsUnder ["dpg", "encoder"] nEnc 2) ++
              varsUnder ["dpg", "decoder"] nDec (2 + nEnc)) ++
            varsUnder ["dpg", "critic"] (mlpVarCount spec.critic_dims true)
              (2 + nEnc + nDec), f⟩ =
            sharedCriticIds (2 + nEnc + nDec)
              (mlpVarCount spec.critic_dims true) := by
        intro f
        rw [lookupVarsUnder_pre (fun v hv => by
          rcases List.mem_append.mp hv with h | h
          · rcases List.mem_append.mp h with h2 | h2 <;>
              rw [varsUnder_path_eq h2] <;> decide
          · rw [varsUnder_path_eq h]; decide)]
        rfl
      rw [hlook]
      refine ⟨?_, rfl⟩
      simp [sharedCriticIds, List.map_map]


theorem DPG_construct_vars_partition (spec : ModelSpec) :
    (DPG_construct_vars spec).policy_params =
        varsUnder ["dpg", "policy"] (mlpVarCount spec.policy_dims false) 0 ∧
    (DPG_construct_vars spec).critic_params =
        varsUnder ["dpg", "critic"] (mlpVarCount spec.critic_dims true)
          (mlpVarCount spec.policy_dims false) ∧
    (DPG_construct_vars spec).policy_params ∩
        (DPG_construct_vars spec).critic_params = [] := by
  have hpp : (DPG_construct_vars spec).policy_params =
      varsUnder ["dpg", "policy"] (mlpVarCount spec.policy_dims false) 0 := by
    simp only [DPG_construct_vars, createVarsUnder, GraphState.empty,
      List.nil_append, Nat.zero_add, dpg_policy_filter, List.filter_append]
    rw [filter_varsUnder_true (fun i _ => rfl),
      filter_varsUnder_false (fun i _ => rfl),
      filter_varsUnder_false (fun i _ => rfl),
      filter_varsUnder_false (fun i _ => rfl)]
    simp
  have hcp : (DPG_construct_vars spec).critic_params =
      varsUnder ["dpg", "critic"] (mlpVarCount spec.critic_dims true)
        (mlpVarCount spec.policy_dims false) := by
    simp only [DPG_construct_vars, createVarsUnder, GraphState.empty,
      List.nil_append, Nat.zero_add, dpg_critic_filter, List.filter_append]
    rw [filter_varsUnder_false (fun i _ => rfl),
      filter_varsUnder_true (fun i _ => rfl),
      filter_varsUnder_false (fun i _ => rfl),
      filter_varsUnder_false (fun i _ => rfl)]
    simp
  refine ⟨hpp, hcp, ?_⟩
  rw [hpp, hcp, List.inter_eq_nil_iff_disjoint]
  intro v hv hv2
  exact absurd ((varsUnder_path_eq hv).symm.trans (varsUnder_path_eq hv2))
    (by decide)

theorem RecurrentDPG_vars_partition (npol : Nat) (spec : ModelSpec)
    (T : Nat) :
    (RecurrentDPG_construct_vars npol spec (T + 1)).policy_params =
        varsUnder recurrentPolicyPath npol 0 ∧
    (RecurrentDPG_construct_vars npol spec (T + 1)).critic_params =
        varsUnder ["dpg", "critic"] (mlpVarCount spec.critic_dims true)
          npol ∧
    (RecurrentDPG_construct_vars npol spec (T + 1)).policy_params ∩
        (RecurrentDPG_construct_vars npol spec (T + 1)).critic_params =
      [] := by
  have hfinal : (RecurrentDPG_construct_vars npol spec (T + 1)).final.vars =
      varsUnder recurrentPolicyPath npol 0 ++
        varsUnder ["dpg", "critic"] (mlpVarCount spec.critic_dims true)
          npol := by
    simp only [RecurrentDPG_construct_vars]
    rw [seq_critic_vars_false, seq_critic_vars_true]
    simp only [createVarsUnder, GraphState.empty, List.nil_append,
      Nat.zero_add]
  have hpp : (RecurrentDPG_construct_vars npol spec (T + 1)).policy_params =
      varsUnder recurrentPolicyPath npol 0 := by
    show dpg_policy_filter
        (RecurrentDPG_construct_vars npol spec (T + 1)).final.vars = _
    rw [hfinal]
    simp only [dpg_policy_filter, List.filter_append]
    rw [filter_varsUnder_true (fun i _ => rfl),
      filter_varsUnder_false (fun i _ => rfl)]
    simp
  have hcp : (RecurrentDPG_construct_vars npol spec (T + 1)).critic_params =
      varsUnder ["dpg", "critic"] (mlpVarCount spec.critic_dims true)
        npol := by
    show dpg_critic_filter
        (RecurrentDPG_construct_vars npol spec (T + 1)).final.vars = _
    rw [hfinal]
    simp only [dpg_critic_filter, List.filter_append]
    rw [filter_varsUnder_false (fun i _ => rfl),
      filter_varsUnder_true (fun i _ => rfl)]
    simp
  refine ⟨hpp, hcp, ?_⟩
  rw [hpp, hcp, List.inter_eq_nil_iff_disjoint]
  intro v hv hv2
  exact absurd ((varsUnder_path_eq hv).symm.trans (varsUnder_path_eq hv2))
    (by decide)

theorem PointerNetDPG_vars_partition (spec : ModelSpec) (nEnc nDec T : Nat) :
    ((PointerNetDPG_build_vars spec nEnc nDec false (T + 1)).policy_params ∩
        (PointerNetDPG_build_vars spec nEnc nDec false (T + 1)).critic_params
      = []) ∧
    ((PointerNetDPG_build_vars spec nEnc nDec true (T + 1)).policy_params ∩
        (PointerNetDPG_build_vars spec nEnc nDec true (T + 1)).critic_params
      = [bn_beta_var, bn_gamma_var]) := by
  constructor
  · simp only [PointerNetDPG_build_vars, Bool.false_eq_true, if_false]
    rw [seq_critic_vars_false, seq_critic_vars_true]
    simp only [createVarsUnder, GraphState.empty, List.nil_append,
      Nat.zero_add, List.append_nil, pointer_policy_filter,
      dpg_critic_filter, List.filter_append]
    rw [filter_varsUnder_true (fun i _ => rfl),
      filter_varsUnder_true (fun i _ => rfl),
      filter_varsUnder_false (fun i _ => rfl),
      filter_varsUnder_false (fun i _ => rfl),
      filter_varsUnder_false (fun i _ => rfl),
      filter_varsUnder_true (fun i _ => rfl)]
    rw [List.inter_eq_nil_iff_disjoint]
    intro v hv hv2
    rcases List.mem_append.mp (by simpa using hv) with h | h <;>
      exact absurd ((varsUnder_path_eq h).symm.trans (varsUnder_path_eq hv2))
        (by decide)
  · simp only [PointerNetDPG_build_vars, if_true]
    rw [seq_critic_vars_false, seq_critic_vars_true]
    simp only [createVarsUnder, GraphState.empty, List.nil_append,
      Nat.zero_add, pointer_policy_filter, dpg_critic_filter,
      List.filter_append]
    rw [filter_varsUnder_false (fun i _ => rfl),
      filter_varsUnder_true (fun i _ => rfl),
      filter_varsUnder_true (fun i _ => rfl),
      filter_varsUnder_false (fun i _ => rfl),
      filter_varsUnder_false (fun i _ => rfl),
      filter_varsUnder_false (fun i _ => rfl),
      filter_varsUnder_false (fun i _ => rfl),
      filter_varsUnder_true (fun i _ => rfl)]
    rw [List.inter_def]
    simp only [List.nil_append, List.filter_append]
    have h1 : (varsUnder ["dpg", "encoder"] nEnc 2).filter
        (fun a => (varsUnder ["dpg", "critic"]
            (mlpVarCount spec.critic_dims true) (2 + nEnc + nDec) ++
          varsUnder ["dpg", "bn"] 2 0).elem a) = [] :=
      filter_varsUnder_false (fun i hi => by
        have hmem : (⟨⟨["dpg", "encoder"], i⟩, 2 + i⟩ : TFVar) ∉
            varsUnder ["dpg", "critic"]
                (mlpVarCount spec.critic_dims true) (2 + nEnc + nDec) ++
              varsUnder ["dpg", "bn"] 2 0 := by
          intro hm
          rcases List.mem_append.mp hm with h | h <;>
            · have hq := varsUnder_path_eq h
              simp at hq
        simpa using hmem)
    have h2 : (varsUnder ["dpg", "decoder"] nDec (2 + nEnc)).filter
        (fun a => (varsUnder ["dpg", "critic"]
            (mlpVarCount spec.critic_dims true) (2 + nEnc + nDec) ++
          varsUnder ["dpg", "bn"] 2 0).elem a) = [] :=
      filter_varsUnder_false (fun i hi => by
        have hmem : (⟨⟨["dpg", "decoder"], i⟩, 2 + nEnc + i⟩ : TFVar) ∉
            varsUnder ["dpg", "critic"]
                (mlpVarCount spec.critic_dims true) (2 + nEnc + nDec) ++
              varsUnder ["dpg", "bn"] 2 0 := by
          intro hm
          rcases List.mem_append.mp hm with h | h <;>
            · have hq := varsUnder_path_eq h
              simp at hq
        simpa using hmem)
    have h3 : (varsUnder ["dpg", "bn"] 2 0).filter
        (fun a => (varsUnder ["dpg", "critic"]
            (mlpVarCount spec.critic_dims true) (2 + nEnc + nDec) ++
          varsUnder ["dpg", "bn"] 2 0).elem a) = varsUnder ["dpg", "bn"] 2 0 :=
      filter_varsUnder_true (fun i hi => by
        have hmem : (⟨⟨["dpg", "bn"], i⟩, 0 + i⟩ : TFVar) ∈
            varsUnder ["dpg", "critic"]
                (mlpVarCount spec.critic_dims true) (2 + nEnc + nDec) ++
              varsUnder ["dpg", "bn"] 2 0 :=
          List.mem_append.mpr (Or.inr (mem_varsUnder.mpr ⟨i, hi, rfl⟩))
        simpa using hmem)
    rw [h1, h2, h3]
    simp only [List.filter_nil, List.nil_append, List.append_nil]
    decide

theorem PointerNetDPG_vars_params (spec : ModelSpec) (nEnc nDec T : Nat) :
    ((PointerNetDPG_build_vars spec nEnc nDec false (T + 1)).policy_params =
        varsUnder ["dpg", "encoder"] nEnc 0 ++
          varsUnder ["dpg", "decoder"] nDec nEnc) ∧
    ((PointerNetDPG_build_vars spec nEnc nDec false (T + 1)).critic_params =
        varsUnder ["dpg", "critic"] (mlpVarCount spec.critic_dims true)
          (nEnc + nDec)) ∧
    ((PointerNetDPG_build_vars spec nEnc nDec true (T + 1)).policy_params =
        (varsUnder ["dpg", "encoder"] nEnc 2 ++
            varsUnder ["dpg", "decoder"] nDec (2 + nEnc)) ++
          varsUnder ["dpg", "bn"] 2 0) ∧
    ((PointerNetDPG_build_vars spec nEnc nDec true (T + 1)).critic_params =
        varsUnder ["dpg", "critic"] (mlpVarCount spec.critic_dims true)
          (2 + nEnc + nDec) ++ varsUnder ["dpg", "bn"] 2 0) := by
  refine ⟨?_, ?_, ?_, ?_⟩
  · simp only [PointerNetDPG_build_vars, Bool.false_eq_true, if_false]
    rw [seq_critic_vars_false, seq_critic_vars_true]
    simp only [createVarsUnder, GraphState.empty, List.nil_append,
      Nat.zero_add, List.append_nil, pointer_policy_filter,
      List.filter_append]
    rw [filter_varsUnder_true (fun i _ => rfl),
      filter_varsUnder_true (fun i _ => rfl),
      filter_varsUnder_false (fun i _ => rfl)]
    simp
  · simp only [PointerNetDPG_build_vars, Bool.false_eq_true, if_false]
    rw [seq_critic_vars_false, seq_critic_vars_true]
    simp only [createVarsUnder, GraphState.empty, List.nil_append,
      Nat.zero_add, List.append_nil, dpg_critic_filter, List.filter_append]
    rw [filter_varsUnder_false (fun i _ => rfl),
      filter_varsUnder_false (fun i _ => rfl),
      filter_varsUnder_true (fun i _ => rfl)]
    simp
  · simp only [PointerNetDPG_build_vars, if_true]
    rw [seq_critic_vars_false, seq_critic_vars_true]
    simp only [createVarsUnder, GraphState.empty, List.nil_append,
      Nat.zero_add, pointer_policy_filter, List.filter_append]
    rw [filter_varsUnder_false (fun i _ => rfl),
      filter_varsUnder_true (fun i _ => rfl),
      filter_varsUnder_true (fun i _ => rfl),
      filter_varsUnder_false (fun i _ => rfl)]
    simp
  · simp only [PointerNetDPG_build_vars, if_true]
    rw [seq_critic_vars_false, seq_critic_vars_true]
    simp only [createVarsUnder, GraphState.empty, List.nil_append,
      Nat.zero_add, dpg_critic_filter, List.filter_append]
    rw [filter_varsUnder_false (fun i _ => rfl),
      filter_varsUnder_false (fun i _ => rfl),
      filter_varsUnder_false (fun i _ => rfl),
      filter_varsUnder_true (fun i _ => rfl)]
    simp

/-- Claim C1: for every constructed base `DPG` instance, the policy
objective equals the negated mean of the on-policy critic values, and the
critic objective equals the mean of the squared differences between the
off-policy critic values and the supplied targets. -/
theorem C1_base_objectives (θp : Vec → Vec) (θc : Vec → ℝ)
    (θpt : Vec → Vec) (θct : Vec → ℝ) (noiser : Mat → Mat) (inputs : Mat)
    (q_targets : List ℝ) :
    (DPG_construct θp θc θpt θct noiser inputs q_targets).policy_objective =
      -mean (DPG_construct θp θc θpt θct noiser inputs q_targets).critic_on ∧
    (DPG_construct θp θc θpt θct noiser inputs q_targets).critic_objective =
      mean (List.zipWith (fun c q => (c - q) ^ 2)
        (DPG_construct θp θc θpt θct noiser inputs q_targets).critic_off
        (DPG_construct θp θc θpt θct noiser inputs q_targets).q_targets) :=
  ⟨rfl, rfl⟩

/-- Claim C2: the critic parameters are shared by every critic evaluation of
one instance.  In the base graph, the `reuse=True` rebuild of the critic for
the off-policy branch resolves to exactly the variables created for the
on-policy branch (same identities, hence the same tensors after any
mutation), and at the value level the two branches are the same critic
function applied to `(inputs, a_pred)` and `(inputs, a_explore)`.  In the
sequence variants, the critic parameters created at the first on-policy
timestep are the ones every later timestep and the whole exploratory branch
resolve to. -/
theorem C2_critic_parameter_sharing :
    (∀ spec : ModelSpec, (DPG_construct_vars spec).criticOffIds =
      (DPG_construct_vars spec).criticIds.map some) ∧
    (∀ (θp : Vec → Vec) (θc : Vec → ℝ) (θpt : Vec → Vec) (θct : Vec → ℝ)
      (noiser : Mat → Mat) (inputs : Mat) (q_targets : List ℝ),
      (DPG_construct θp θc θpt θct noiser inputs q_targets).critic_on =
        critic_model θc inputs
          (DPG_construct θp θc θpt θct noiser inputs q_targets).a_pred ∧
      (DPG_construct θp θc θpt θct noiser inputs q_targets).critic_off =
        critic_model θc inputs
          (DPG_construct θp θc θpt θct noiser inputs q_targets).a_explore) ∧
    (∀ (npol : Nat) (spec : ModelSpec) (T : Nat),
      (RecurrentDPG_construct_vars npol spec (T + 1)).criticOnSeqIds =
          sharedCriticIds npol (mlpVarCount spec.critic_dims true) ::
            List.replicate T
              (sharedCriticIds npol (mlpVarCount spec.critic_dims true)) ∧
      (RecurrentDPG_construct_vars npol spec (T + 1)).criticOffSeqIds =
          List.replicate (T + 1)
            (sharedCriticIds npol (mlpVarCount spec.critic_dims true))) ∧
    (∀ (spec : ModelSpec) (nEnc nDec : Nat) (bn_actions : Bool) (T : Nat),
      (PointerNetDPG_build_vars spec nEnc nDec bn_actions
          (T + 1)).criticOnIds =
        sharedCriticIds ((if bn_actions then 2 else 0) + nEnc + nDec)
            (mlpVarCount spec.critic_dims true) ::
          List.replicate T
            (sharedCriticIds ((if bn_actions then 2 else 0) + nEnc + nDec)
              (mlpVarCount spec.critic_dims true)) ∧
      (PointerNetDPG_build_vars spec nEnc nDec bn_actions
          (T + 1)).criticOffIds =
        List.replicate (T + 1)
          (sharedCriticIds ((if bn_actions then 2 else 0) + nEnc + nDec)
            (mlpVarCount spec.critic_dims true))) := by
  refine ⟨DPG_construct_vars_criticOff, fun _ _ _ _ _ _ _ => ⟨rfl, rfl⟩,
    ?_, ?_⟩
  · intro npol spec T
    have h := RecurrentDPG_vars_critic_shared npol spec T
    exact ⟨h.1, h.2.1⟩
  · intro spec nEnc nDec bn T
    exact PointerNetDPG_vars_critic_shared spec nEnc nDec bn T

/-- Claim C3: constructing a `PointerNetDPG` whose `mdp.state_dim` differs
from `2 × spec.policy_dims[0]` fails at construction time via the
assertion, before any graph variable or tensor is created; with
`policy_dims[0] = 3` and `state_dim = 6` the assertion passes and
construction proceeds. -/
theorem C3_pointer_assertion :
    (∀ (mdp : MDPSpec) (spec : ModelSpec) (input_dim seq_length : Nat)
      (bn_actions : Bool) (nEnc nDec : Nat),
      mdp.state_dim ≠ spec.policy_dims.headI * 2 →
      PointerNetDPG_construct mdp spec input_dim seq_length bn_actions nEnc
        nDec = Except.error "AssertionError") ∧
    PointerNetDPG_construct ⟨6, 2⟩ ⟨[3], [2]⟩ 1 5 false 4 4 =
      Except.ok (PointerNetDPG_build_vars ⟨[3], [2]⟩ 4 4 false 5) := by
  constructor
  · intro mdp spec input_dim seq_length bn nEnc nDec h
    simp [PointerNetDPG_construct, h]
  · rfl

/-- Witness for C3: the spec's scenario with `state_dim = 5` (≠ 2 × 3) is
rejected by the assertion. -/
theorem C3_pointer_assertion_witness :
    PointerNetDPG_construct ⟨5, 2⟩ ⟨[3], [2]⟩ 1 5 false 4 4 =
      Except.error "AssertionError" :=
  C3_pointer_assertion.1 ⟨5, 2⟩ ⟨[3], [2]⟩ 1 5 false 4 4 (by decide)

/-- Counterexample to claim C5 as stated: in a pointer-network instance
with batch normalization enabled (`policy_dims = [3]`, `critic_dims = [2]`,
four encoder and four decoder cell parameters, `seq_length = 5`), the
batch-norm scale variable belongs to both `policy_params` and
`critic_params`, so the two parameter sets are not disjoint. -/
theorem C5_counterexample :
    bn_beta_var ∈
        (PointerNetDPG_build_vars ⟨[3], [2]⟩ 4 4 true 5).policy_params ∧
      bn_beta_var ∈
        (PointerNetDPG_build_vars ⟨[3], [2]⟩ 4 4 true 5).critic_params := by
  decide

/-- Claim C5 (amended): for every constructed instance, `policy_params` is
exactly the variables under the instance's policy name scopes
(`policy` for the base and recurrent variants, `encoder`/`decoder` for the
pointer-network variant) and `critic_params` exactly those under the
critic scope — plus, with batch normalization on, the two batch-norm
variables appended to both sets.  The two sets are disjoint for base,
recurrent, and pointer-without-batch-norm instances; with batch
normalization on their overlap is exactly the two batch-norm variables. -/
theorem C5_partition_amended :
    (∀ spec : ModelSpec,
      (DPG_construct_vars spec).policy_params =
          varsUnder ["dpg", "policy"] (mlpVarCount spec.policy_dims false)
            0 ∧
      (DPG_construct_vars spec).critic_params =
          varsUnder ["dpg", "critic"] (mlpVarCount spec.critic_dims true)
            (mlpVarCount spec.policy_dims false) ∧
      (DPG_construct_vars spec).policy_params ∩
          (DPG_construct_vars spec).critic_params = []) ∧
    (∀ (npol : Nat) (spec : ModelSpec) (T : Nat),
      (RecurrentDPG_construct_vars npol spec (T + 1)).policy_params =
          varsUnder recurrentPolicyPath npol 0 ∧
      (RecurrentDPG_construct_vars npol spec (T + 1)).critic_params =
          varsUnder ["dpg", "critic"] (mlpVarCount spec.critic_dims true)
            npol ∧
      (RecurrentDPG_construct_vars npol spec (T + 1)).policy_params ∩
          (RecurrentDPG_construct_vars npol spec (T + 1)).critic_params =
        []) ∧
    (∀ (spec : ModelSpec) (nEnc nDec T : Nat),
      (PointerNetDPG_build_vars spec nEnc nDec false (T + 1)).policy_params =
          varsUnder ["dpg", "encoder"] nEnc 0 ++
            varsUnder ["dpg", "decoder"] nDec nEnc ∧
      (PointerNetDPG_build_vars spec nEnc nDec false (T + 1)).critic_params =
          varsUnder ["dpg", "critic"] (mlpVarCount spec.critic_dims true)
            (nEnc + nDec) ∧
      (PointerNetDPG_build_vars spec nEnc nDec false (T + 1)).policy_params ∩
          (PointerNetDPG_build_vars spec nEnc nDec false
            (T + 1)).critic_params = []) ∧
    (∀ (spec : ModelSpec) (nEnc nDec T : Nat),
      (PointerNetDPG_build_vars spec nEnc nDec true (T + 1)).policy_params =
          (varsUnder ["dpg", "encoder"] nEnc 2 ++
              varsUnder ["dpg", "decoder"] nDec (2 + nEnc)) ++
            varsUnder ["dpg", "bn"] 2 0 ∧
      (PointerNetDPG_build_vars spec nEnc nDec true (T + 1)).critic_params =
          varsUnder ["dpg", "critic"] (mlpVarCount spec.critic_dims true)
            (2 + nEnc + nDec) ++ varsUnder ["dpg", "bn"] 2 0 ∧
      (PointerNetDPG_build_vars spec nEnc nDec true (T + 1)).policy_params ∩
          (PointerNetDPG_build_vars spec nEnc nDec true
            (T + 1)).critic_params = [bn_beta_var, bn_gamma_var]) :=
  ⟨DPG_construct_vars_partition,
    RecurrentDPG_vars_partition,
    fun spec nEnc nDec T =>
      ⟨(PointerNetDPG_vars_params spec nEnc nDec T).1,
        (PointerNetDPG_vars_params spec nEnc nDec T).2.1,
        (PointerNetDPG_vars_partition spec nEnc nDec T).1⟩,
    fun spec nEnc nDec T =>
      ⟨(PointerNetDPG_vars_params spec nEnc nDec T).2.2.1,
        (PointerNetDPG_vars_params spec nEnc nDec T).2.2.2,
        (PointerNetDPG_vars_partition spec nEnc nDec T).2⟩⟩

/-- Claim C4: invoking the feedback function or the action-hardening
operation without a concrete subclass override always raises
`NotImplementedError` — in particular, constructing a `RecurrentDPG` whose
`_loop_function` is not overridden fails during construction, because
`_make_graph` builds the feedback function — and `harden_actions` raises on
both `RecurrentDPG` and `PointerNetDPG` for every input. -/
theorem C4_abstract_methods :
    RecurrentDPG_loop_function = Except.error notImplemented ∧
    (∀ (gru : Vec → Vec → Vec × Vec) (θp : Vec → Vec) (θc : Vec → ℝ)
      (noiserSeq : List Vec → List Vec) (noiserInd : Vec → Vec)
      (inputs dsi dai : Vec) (input_dim sdim T : Nat),
      RecurrentDPG_construct_abstract gru θp θc noiserSeq noiserInd inputs
        dsi dai input_dim sdim T = Except.error notImplemented) ∧
    (∀ action_list, RecurrentDPG_harden_actions action_list =
      Except.error notImplemented) ∧
    (∀ action_list, PointerNetDPG_harden_actions action_list =
      Except.error notImplemented) :=
  ⟨rfl, fun _ _ _ _ _ _ _ _ _ _ _ => rfl, fun _ => rfl, fun _ => rfl⟩

/-- Claim C6: `_make_updates` of the recurrent and pointer-network variants
performs nothing — the store is untouched and no tracking op is built — in
contrast to the base `DPG`, whose `_make_updates` builds a grouped
policy-and-critic tracking update (shown here on the instance with
`policy_dims = critic_dims = [2]`). -/
theorem C6_variant_updates_noop :
    (∀ s, RecurrentDPG_make_updates s = (s, none)) ∧
    (∀ s, PointerNetDPG_make_updates s = (s, none)) ∧
    (DPG_make_updates (DPG_construct_vars ⟨[2], [2]⟩).final).2 =
      some (TrackOp.group
        [TrackOp.group [TrackOp.assign 7 0, TrackOp.assign 8 1,
          TrackOp.assign 9 2],
         TrackOp.group [TrackOp.assign 10 3, TrackOp.assign 11 4,
          TrackOp.assign 12 5, TrackOp.assign 13 6]]) :=
  ⟨fun _ => rfl, fun _ => rfl, by rfl⟩

theorem sum_map_exp_pos (x : Vec) (h : x ≠ []) :
    0 < (x.map Real.exp).sum := by
  cases x with
  | nil => exact absurd rfl h
  | cons a as =>
      simp only [List.map_cons, List.sum_cons]
      have h1 : 0 < Real.exp a := Real.exp_pos a
      have h2 : 0 ≤ (as.map Real.exp).sum :=
        List.sum_nonneg (fun b hb => by
          rcases List.mem_map.mp hb with ⟨c, _, rfl⟩
          exact (Real.exp_pos c).le)
      linarith

theorem softmax_sum_one (x : Vec) (h : x ≠ []) : (softmax x).sum = 1 := by
  unfold softmax
  have hpos := sum_map_exp_pos x h
  simp only [div_eq_mul_inv]
  rw [List.sum_map_mul_right]
  exact mul_inv_cancel₀ (ne_of_gt hpos)

theorem getD_range_map {α : Type} (f : Nat → α) (T t : Nat) (d : α)
    (h : t < T) : ((List.range T).map f).getD t d = f t := by
  rw [List.getD_eq_getElem?_getD, List.getElem?_map, List.getElem?_range h]
  rfl

/-- Claim C7: in `PointerNetDPG`, at every decoder step the next decoder
input is the attention-weighted sum over the encoder memory: the step
output is passed through a softmax — whose weights sum to 1 across the
memory-sequence axis — and the value fed back as the next input is the sum
over the sequence of these weights times the retained encoder states.  The
hypothesis `hcell` records that the decoder GRU produces nonempty (i.e.
positive-width) step outputs. -/
theorem C7_pointer_attention (encCell decCell : Vec → Vec → Vec)
    (θc : Vec → ℝ) (noiserSeq : List Vec → List Vec) (inputs : List Vec)
    (input_dim sdim T t : Nat) (ht : t + 1 < T)
    (hcell : ∀ i s, decCell i s ≠ []) :
    (PointerNetDPG_make_graph encCell decCell θc noiserSeq inputs input_dim
        sdim T).decoder_inputs.getD (t + 1) [] =
      vsum (List.zipWith (fun w mem => mem.map (fun x => w * x))
        (softmax ((PointerNetDPG_make_graph encCell decCell θc noiserSeq
            inputs input_dim sdim T).a_pred.getD t []))
        (PointerNetDPG_make_graph encCell decCell θc noiserSeq inputs
          input_dim sdim T).encoder_states) ∧
    (softmax ((PointerNetDPG_make_graph encCell decCell θc noiserSeq inputs
        input_dim sdim T).a_pred.getD t [])).sum = 1 := by
  have h1 : t < T := by omega
  simp only [PointerNetDPG_make_graph]
  rw [getD_range_map _ _ _ _ ht, getD_range_map _ _ _ _ h1]
  constructor
  · simp only [rnn_decoder_roll, rnn_decoder_out, PointerNetDPG_loop_fn]
  · apply softmax_sum_one
    simp only [rnn_decoder_out]
    exact hcell _ _

/-- Witness for C7 at a concrete instance: constant encoder and decoder
cells, two decoder steps, step 0. -/
theorem C7_pointer_attention_witness :
    (PointerNetDPG_make_graph (fun _ _ => ([] : Vec)) (fun _ _ => [(0 : ℝ)])
        (fun _ => (0 : ℝ)) id [] 1 1 2).decoder_inputs.getD 1 [] =
      vsum (List.zipWith (fun w mem => mem.map (fun x => w * x))
        (softmax ((PointerNetDPG_make_graph (fun _ _ => ([] : Vec))
            (fun _ _ => [(0 : ℝ)]) (fun _ => (0 : ℝ)) id [] 1 1
            2).a_pred.getD 0 []))
        (PointerNetDPG_make_graph (fun _ _ => ([] : Vec))
          (fun _ _ => [(0 : ℝ)]) (fun _ => (0 : ℝ)) id [] 1 1
          2).encoder_states) ∧
    (softmax ((PointerNetDPG_make_graph (fun _ _ => ([] : Vec))
        (fun _ _ => [(0 : ℝ)]) (fun _ => (0 : ℝ)) id [] 1 1 2).a_pred.getD 0
        [])).sum = 1 :=
  C7_pointer_attention (fun _ _ => []) (fun _ _ => [(0 : ℝ)])
    (fun _ => (0 : ℝ)) id [] 1 1 2 0 (by omega) (fun i s => by simp)

/-- Counterexample to claim C8 as stated: the per-timestep critic state
representation is `tf.concat(1, [inputs_t, states_t])` — decoder input
first, then hidden state — not hidden state first.  With decoder input
`[0]` and hidden state `[1]` the code builds the state `[0, 1]`, while the
claim's order would build `[1, 0]`. -/
theorem C8_counterexample :
    pointer_critic_states [[(0 : ℝ)]] [[(1 : ℝ)]] ≠
      pointer_critic_states_claim [[(0 : ℝ)]] [[(1 : ℝ)]] := by
  norm_num [pointer_critic_states, pointer_critic_states_claim]

/-- Claim C8 (amended): in `PointerNetDPG`, the critic at every timestep is
evaluated on a state input equal to the feature-axis concatenation of that
timestep's decoder input and that timestep's decoder hidden state — input
first, then hidden state — not the hidden state alone. -/
theorem C8_pointer_critic_state (θc : Vec → ℝ)
    (dec_inputs dec_states actions_lst : List Vec) :
    PointerNetDPG_critic θc dec_inputs dec_states actions_lst =
      List.zipWith (fun p actions_t => criticEval θc (p.1 ++ p.2) actions_t)
        (dec_inputs.zip dec_states) actions_lst := by
  simp only [PointerNetDPG_critic, pointer_critic_states]
  induction dec_inputs generalizing dec_states actions_lst with
  | nil => rfl
  | cons i is ih =>
      cases dec_states with
      | nil => rfl
      | cons s ss =>
          cases actions_lst with
          | nil => rfl
          | cons a as => simpa using ih ss as

/-- Claim C10: in a constructed `RecurrentDPG`, the `critic_on` and
`critic_off` handles are not the per-timestep rollout critic values (those
are the separately exposed `critic_on_seq` and `critic_off_seq`):
`critic_on` applies the critic to the externally supplied decoder-state
placeholder paired with the action recomputed by applying the decoder cell
to `(inputs, decoder_state_ind)`, `critic_off` to the noised version of
that action, and the `decoder_action_ind` placeholder is consumed by no
constructed tensor — constructions differing only in it differ only in the
stored placeholder itself. -/
theorem C10_recurrent_single_step (gru : Vec → Vec → Vec × Vec)
    (θp : Vec → Vec) (θc : Vec → ℝ) (loopFn : Vec → Nat → Vec)
    (noiserSeq : List Vec → List Vec) (noiserInd : Vec → Vec)
    (inputs dsi dai dai2 : Vec) (input_dim sdim T : Nat) :
    (RecurrentDPG_construct gru θp θc loopFn noiserSeq noiserInd inputs dsi
        dai input_dim sdim T).critic_on =
      criticEval θc dsi (PolicyRNNCell_call gru θp inputs dsi).1 ∧
    (RecurrentDPG_construct gru θp θc loopFn noiserSeq noiserInd inputs dsi
        dai input_dim sdim T).critic_off =
      criticEval θc dsi
        (noiserInd (PolicyRNNCell_call gru θp inputs dsi).1) ∧
    (RecurrentDPG_construct gru θp θc loopFn noiserSeq noiserInd inputs dsi
        dai input_dim sdim T).critic_on_seq =
      List.zipWith (criticEval θc)
        (RecurrentDPG_construct gru θp θc loopFn noiserSeq noiserInd inputs
          dsi dai input_dim sdim T).decoder_states
        (RecurrentDPG_construct gru θp θc loopFn noiserSeq noiserInd inputs
          dsi dai input_dim sdim T).a_pred ∧
    (RecurrentDPG_construct gru θp θc loopFn noiserSeq noiserInd inputs dsi
        dai input_dim sdim T).critic_off_seq =
      List.zipWith (criticEval θc)
        (RecurrentDPG_construct gru θp θc loopFn noiserSeq noiserInd inputs
          dsi dai input_dim sdim T).decoder_states
        (RecurrentDPG_construct gru θp θc loopFn noiserSeq noiserInd inputs
          dsi dai input_dim sdim T).a_explore ∧
    RecurrentDPG_construct gru θp θc loopFn noiserSeq noiserInd inputs dsi
        dai input_dim sdim T =
      { RecurrentDPG_construct gru θp θc loopFn noiserSeq noiserInd inputs
          dsi dai2 input_dim sdim T with decoder_action_ind := dai } :=
  ⟨rfl, rfl, rfl, rfl, rfl⟩

theorem zipWith_add_replicate_zero :
    ∀ l : List ℝ, List.zipWith (· + ·) l (List.replicate l.length 0) = l
  | [] => rfl
  | a :: as => by
      simp only [List.length_cons, List.replicate_succ,
        List.zipWith_cons_cons, add_zero]
      rw [zipWith_add_replicate_zero as]

theorem matShape_matAdd_rand (mu σ : ℝ) :
    ∀ (m : Mat) (ω : Nat → Nat → ℝ),
      matShape (matAdd m (randomNormalMat (matShape m) mu σ ω)) = matShape m
  | [], _ => rfl
  | row :: rest, ω => by
      simp only [matShape, List.map_cons, randomNormalMat, List.mapIdx_cons,
        matAdd, List.zipWith_cons_cons]
      refine List.cons_eq_cons.mpr ⟨?_, ?_⟩
      · simp
      · exact matShape_matAdd_rand mu σ rest (fun i j => ω (i + 1) j)

theorem matAdd_rand_zero :
    ∀ (m : Mat) (ω : Nat → Nat → ℝ),
      matAdd m (randomNormalMat (matShape m) 0 0 ω) = m
  | [], _ => rfl
  | row :: rest, ω => by
      simp only [matShape, List.map_cons, randomNormalMat, List.mapIdx_cons,
        matAdd, List.zipWith_cons_cons]
      refine List.cons_eq_cons.mpr ⟨?_, ?_⟩
      · have hz : (List.range row.length).map
            (fun j => (0 : ℝ) + 0 * ω 0 j) =
              List.replicate row.length (0 : ℝ) := by
          simp [List.map_const']
        rw [hz, zipWith_add_replicate_zero]
      · exact matAdd_rand_zero rest (fun i j => ω (i + 1) j)

theorem noise_each_tensor_shape (σ : ℝ) :
    ∀ (ms : List Mat) (ω : List Nat → Nat → Nat → ℝ) (t : Nat),
      actShapeList (noise_gaussian_each σ ω t (ms.map ActT.tensor)) =
        actShapeList (ms.map ActT.tensor)
  | [], _, _ => rfl
  | m :: rest, ω, t => by
      simp only [List.map_cons, noise_gaussian_each, noise_gaussian,
        actShapeList, actShape]
      refine List.cons_eq_cons.mpr ⟨?_, ?_⟩
      · rw [matShape_matAdd_rand]
      · exact noise_each_tensor_shape σ rest (fun p => ω p) (t + 1)

theorem noise_each_tensor_zero :
    ∀ (ms : List Mat) (ω : List Nat → Nat → Nat → ℝ) (t : Nat),
      noise_gaussian_each 0 ω t (ms.map ActT.tensor) = ms.map ActT.tensor
  | [], _, _ => rfl
  | m :: rest, ω, t => by
      simp only [List.map_cons, noise_gaussian_each, noise_gaussian]
      refine List.cons_eq_cons.mpr ⟨?_, ?_⟩
      · rw [matAdd_rand_zero]
      · exact noise_each_tensor_zero rest (fun p => ω p) (t + 1)

/-- Claim C9: `noise_gaussian` preserves the shape of its input, both for a
single action tensor and for an ordered list of per-timestep action
tensors; with standard deviation 0 the output equals the input exactly,
elementwise and per timestep. -/
theorem C9_noise_gaussian :
    (∀ (σ : ℝ) (ω : List Nat → Nat → Nat → ℝ) (m : Mat),
      actShape (noise_gaussian σ ω (ActT.tensor m)) =
        actShape (ActT.tensor m)) ∧
    (∀ (σ : ℝ) (ω : List Nat → Nat → Nat → ℝ) (ms : List Mat),
      actShape (noise_gaussian σ ω (ActT.list (ms.map ActT.tensor))) =
        actShape (ActT.list (ms.map ActT.tensor))) ∧
    (∀ (ω : List Nat → Nat → Nat → ℝ) (m : Mat),
      noise_gaussian 0 ω (ActT.tensor m) = ActT.tensor m) ∧
    (∀ (ω : List Nat → Nat → Nat → ℝ) (ms : List Mat),
      noise_gaussian 0 ω (ActT.list (ms.map ActT.tensor)) =
        ActT.list (ms.map ActT.tensor)) := by
  refine ⟨?_, ?_, ?_, ?_⟩
  · intro σ ω m
    simp only [noise_gaussian, actShape]
    rw [matShape_matAdd_rand]
  · intro σ ω ms
    simp only [noise_gaussian, actShape]
    rw [noise_each_tensor_shape]
  · intro ω m
    simp only [noise_gaussian]
    rw [matAdd_rand_zero]
  · intro ω ms
    simp only [noise_gaussian]
    rw [noise_each_tensor_zero]

end Rlcomp
